import Mathlib

/-!
Shallow embedding of the BLE multi-advertising manager in
stack/btm/btm_ble_multi_adv.cc, together with proofs about its fragmenter,
timeout recomputation, RPA rotation, command pipeline, encrypted-advertising
wrapping and table indexing.

Machine integers of the source (uint8_t, uint16_t, int) are modelled as Nat
(Int for the signed tx_power); none of the code paths modelled here relies on
wrap-around, and all divisions and subtractions are the Nat operations that
agree with the C++ ones on the in-range values the theorems quantify over.
Asynchronous callback chains are modelled by explicit result values: a list of
the statuses a callback was invoked with, plus data describing which commands
were issued.
-/

namespace BtmBleMultiAdv

/-- Constant EXT_ADV_DATA_LEN_MAX from btm_ble_multi_adv.cc. -/
def EXT_ADV_DATA_LEN_MAX : Nat := 251

/-- Constant PERIODIC_ADV_DATA_LEN_MAX from btm_ble_multi_adv.cc. -/
def PERIODIC_ADV_DATA_LEN_MAX : Nat := 252

/-- Constant ADVERTISE_FAILED_FEATURE_UNSUPPORTED from btm_ble_multi_adv.cc. -/
def ADVERTISE_FAILED_FEATURE_UNSUPPORTED : Nat := 0x05

/-- Modelled from the spec: BTM_BLE_MULTI_ADV_SUCCESS, the zero success code
of the HCI-status plane (the defining header is not under src/). -/
def BTM_BLE_MULTI_ADV_SUCCESS : Nat := 0

/-- Modelled from the spec: BTM_BLE_MULTI_ADV_FAILURE, the nonzero host error
code reported for an instance that is not in use (the defining header is not
under src/; only its nonzero-ness matters to the theorems). -/
def BTM_BLE_MULTI_ADV_FAILURE : Nat := 1

/-- Modelled from the spec: the sentinel big_handle value meaning that no BIG
is bound to the advertising set (INVALID_BIG_HANDLE, defined outside src/). -/
def INVALID_BIG_HANDLE : Nat := 0xFF

/-- Modelled from the spec: HCI error code Limit Reached consumed by
OnAdvertisingSetTerminated (hcidefs.h is not under src/). -/
def HCI_ERR_LIMIT_REACHED : Nat := 0x43

/-- Modelled from the spec: HCI error code Advertising Timeout consumed by
OnAdvertisingSetTerminated (hcidefs.h is not under src/). -/
def HCI_ERR_ADVERTISING_TIMEOUT : Nat := 0x3C

/-- Modelled from the spec: HCI success code. -/
def HCI_SUCCESS : Nat := 0

/-- AD type Encrypted Data (BTM_BLE_AD_TYPE_ED). -/
def BTM_BLE_AD_TYPE_ED : Nat := 0x31

/-- is_connectable from btm_ble_multi_adv.cc: bit 0 of the advertising event
properties. -/
def is_connectable (advertising_event_properties : Nat) : Bool :=
  advertising_event_properties &&& 0x01 ≠ 0

/-- The mutable per-slot state of struct AdvertisingInstance. Timers and
callbacks are modelled by the data the claims need: timeout_cb_set records
whether timeout_cb is non-null, and enable_time is in milliseconds. -/
structure AdvInst where
  inst_id : Nat
  in_use : Bool
  advertising_event_properties : Nat
  tx_power : Int
  duration : Nat
  maxExtAdvEvents : Nat
  own_address_type : Nat
  own_address : Nat
  timeout_cb_set : Bool
  address_update_required : Bool
  periodic_enabled : Bool
  advertising_interval : Nat
  skip_rpa_count : Nat
  skip_rpa : Bool
  randomizer : List Nat
  advertise_data : List Nat
  scan_response_data : List Nat
  periodic_data : List Nat
  advertise_data_enc : List Nat
  scan_response_data_enc : List Nat
  periodic_adv_data_enc : List Nat
  enc_key_value : List Nat
  enable_status : Bool
  enable_time : Nat
  big_handle : Nat
  deriving Repr, DecidableEq

/-- The AdvertisingInstance constructor: a freshly created, unused slot. -/
def mkInst : AdvInst where
  inst_id := 0
  in_use := false
  advertising_event_properties := 0
  tx_power := 0
  duration := 0
  maxExtAdvEvents := 0
  own_address_type := 0
  own_address := 0
  timeout_cb_set := false
  address_update_required := false
  periodic_enabled := false
  advertising_interval := 0
  skip_rpa_count := 0
  skip_rpa := false
  randomizer := []
  advertise_data := []
  scan_response_data := []
  periodic_data := []
  advertise_data_enc := []
  scan_response_data_enc := []
  periodic_adv_data_enc := []
  enc_key_value := []
  enable_status := false
  enable_time := 0
  big_handle := INVALID_BIG_HANDLE

/-- Extended advertising data operation code: intermediate fragment. -/
def INTERMEDIATE : Nat := 0x00

/-- Extended advertising data operation code: first fragment. -/
def FIRST : Nat := 0x01

/-- Extended advertising data operation code: last fragment. -/
def LAST : Nat := 0x02

/-- Extended advertising data operation code: complete data. -/
def COMPLETE : Nat := 0x03

/-- One call made by the fragmenter to its DataSender: the operation code and
the payload bytes data.data() + offset .. + length. -/
structure Chunk where
  op : Nat
  payload : List Nat
  deriving Repr, DecidableEq

/-- Shallow embedding of DivideAndSendDataRecursively. The sender and the
completion callbacks are modelled by the statuses list: the k-th chunk handed
to the sender completes with the k-th entry, and that status is what the next
recursive call receives. The result is the list of chunks handed to the
sender, in order, and the status delivered to done_cb (none when the statuses
list is too short for the sender completion to ever arrive). -/
def divideAndSendDataRecursively (isFirst : Bool) (is_periodic_adv_data : Bool)
    (data : List Nat) (offset : Nat) (statuses : List Nat) (status : Nat) :
    List Chunk × Option Nat :=
  if status ≠ 0 ∨ (isFirst = false ∧ offset = data.length) then
    ([], some status)
  else
    let adv_data_length_max :=
      if is_periodic_adv_data then PERIODIC_ADV_DATA_LEN_MAX else EXT_ADV_DATA_LEN_MAX
    let moreThanOnePacket : Bool := decide (data.length - offset > adv_data_length_max)
    let operation :=
      if isFirst then (if moreThanOnePacket then FIRST else COMPLETE)
      else (if moreThanOnePacket then INTERMEDIATE else LAST)
    let length := if moreThanOnePacket then adv_data_length_max else data.length - offset
    let chunk : Chunk := ⟨operation, (data.drop offset).take length⟩
    match statuses with
    | [] => ([chunk], none)
    | s :: rest =>
      let r := divideAndSendDataRecursively false is_periodic_adv_data data
        (offset + length) rest s
      (chunk :: r.1, r.2)

/-- Shallow embedding of DivideAndSendData: the initial recursive call. -/
def divideAndSendData (data : List Nat) (is_periodic_adv_data : Bool)
    (statuses : List Nat) : List Chunk × Option Nat :=
  divideAndSendDataRecursively true is_periodic_adv_data data 0 statuses 0

/-- The chunk maximum the fragmenter uses. -/
def fragmentChunkMax (is_periodic_adv_data : Bool) : Nat :=
  if is_periodic_adv_data then PERIODIC_ADV_DATA_LEN_MAX else EXT_ADV_DATA_LEN_MAX

/-- Shallow embedding of RecomputeTimeout. The TimeDelta now - enable_time is
the Nat subtraction of millisecond counts (the claims quantify over
now ≥ enable_time only). The second component lists the statuses timeout_cb
was invoked with, in order; the source always passes 0. -/
def recomputeTimeout (inst : AdvInst) (now : Nat) : AdvInst × List Nat :=
  let durationMs := now - inst.enable_time
  let firstBranch : AdvInst × Bool × List Nat :=
    if inst.duration ≠ 0 then
      let durationDone := durationMs / 10
      if durationDone + 1 ≥ inst.duration then
        ({ inst with enable_status := false }, true, [0])
      else
        ({ inst with duration := inst.duration - durationDone }, false, [])
    else (inst, false, [])
  let inst1 := firstBranch.1
  let cb_fired := firstBranch.2.1
  let calls1 := firstBranch.2.2
  if inst1.maxExtAdvEvents ≠ 0 ∧ cb_fired = false then
    let eventsDone := durationMs / (inst1.advertising_interval * 5 / 8)
    if eventsDone + 1 ≥ inst1.maxExtAdvEvents then
      ({ inst1 with enable_status := false }, calls1 ++ [0])
    else
      ({ inst1 with maxExtAdvEvents := inst1.maxExtAdvEvents - eventsDone }, calls1)
  else (inst1, calls1)

/-- Test instance of testRecomputeTimeout1 in btm_ble_multi_adv.cc:
enabled at T0 = 0 with duration = 12 (120 ms). -/
def recomputeTest1 : AdvInst :=
  { mkInst with enable_status := true, enable_time := 0, duration := 12 }

/-- Test instance of testRecomputeTimeout2: enabled at T0 = 0 with
duration = 50, maxExtAdvEvents = 50, advertising_interval = 16 (10 ms). -/
def recomputeTest2 : AdvInst :=
  { mkInst with enable_status := true, enable_time := 0, duration := 50,
                maxExtAdvEvents := 50, advertising_interval := 16 }

/-- Test instance of testRecomputeTimeout3: enabled at T0 = 0 with
maxExtAdvEvents = 50, advertising_interval = 16 (10 ms), no duration. -/
def recomputeTest3 : AdvInst :=
  { mkInst with enable_status := true, enable_time := 0,
                maxExtAdvEvents := 50, advertising_interval := 16 }

/-- How the synchronous part of ConfigureRpa exits. throttled is the
skip_rpa early return (no callback runs, no address is generated, no HCI
command is issued); deferred is the address_update_required return, with the
status configuredCb is run with; generateRpa is the fall-through into the
asynchronous GenerateRpa continuation (which generates an address and issues
SetRandomAddress and possibly data refreshes). -/
inductive RpaOutcome where
  | throttled : RpaOutcome
  | deferred : Nat → RpaOutcome
  | generateRpa : RpaOutcome
  deriving Repr, DecidableEq

/-- Shallow embedding of the synchronous part of ConfigureRpa (everything
before the GenerateRpa call): the broadcast skip_rpa throttle and the
deferred-rotation return. -/
def configureRpaEntry (p_inst : AdvInst) : AdvInst × RpaOutcome :=
  let restart := p_inst.enable_status && is_connectable p_inst.advertising_event_properties
  let skipStep : AdvInst × Bool :=
    if p_inst.skip_rpa then
      if p_inst.skip_rpa_count > 0 then
        ({ p_inst with skip_rpa_count := p_inst.skip_rpa_count - 1 }, true)
      else
        ({ p_inst with skip_rpa_count := 15 }, false)
    else (p_inst, false)
  let p1 := skipStep.1
  if skipStep.2 then (p1, .throttled)
  else if restart = true ∧ (p1.duration ≠ 0 ∨ p1.maxExtAdvEvents ≠ 0) then
    ({ p1 with address_update_required := true }, .deferred 0x01)
  else (p1, .generateRpa)

/-- Shallow embedding of EnableFinish. The timer bookkeeping is not
modelled (real time); what matters to the claims is that the wrapped
callback myCb - whether EnableWithTimerCb or cb itself - runs the original
cb exactly once, with the status the HCI Enable command completes with. The
status argument of EnableFinish itself is ignored by the source. -/
def enableFinish (p_inst : AdvInst) (en : Bool) (now : Nat) (hciStatus : Nat) :
    AdvInst × List Nat :=
  let p1 := if en then { p_inst with enable_time := now } else p_inst
  let p2 := { p1 with enable_status := en }
  (p2, [hciStatus])

/-- Shallow embedding of Enable. The result is the updated table and the
list of statuses the completion callback cb is invoked with: some calls when
the call resolves within the modelled paths, none when it falls through into
the unmodelled asynchronous GenerateRpa continuation of ConfigureRpa.
hciStatus is the status the controller completes the HCI Enable with. -/
def enable (inst_count : Nat) (table : List AdvInst) (inst_id : Nat) (en : Bool)
    (duration maxExtAdvEvents : Nat) (rpa_gen_offload_enabled : Bool)
    (now hciStatus : Nat) : List AdvInst × Option (List Nat) :=
  if inst_id ≥ inst_count then (table, some [])
  else
    match table.get? inst_id with
    | none => (table, some [])
    | some p_inst =>
      if p_inst.in_use = false then (table, some [BTM_BLE_MULTI_ADV_FAILURE])
      else
        let p1 := if en = true ∧ (duration ≠ 0 ∨ maxExtAdvEvents ≠ 0) then
            { p_inst with timeout_cb_set := true } else p_inst
        let p2 := { p1 with duration := duration, maxExtAdvEvents := maxExtAdvEvents }
        if rpa_gen_offload_enabled = false ∧ en = true ∧ p2.address_update_required = true then
          let p3 := { p2 with address_update_required := false }
          let step := configureRpaEntry p3
          match step.2 with
          | .throttled => (table.set inst_id step.1, some [])
          | .deferred _ =>
            let fin := enableFinish step.1 en now hciStatus
            (table.set inst_id fin.1, some fin.2)
          | .generateRpa => (table.set inst_id step.1, none)
        else
          let fin := enableFinish p2 en now hciStatus
          (table.set inst_id fin.1, some fin.2)

/-- Shallow embedding of the per-instance effect of Unregister (the manager
must be initialized and inst_id in range; the BIG-table release and the HCI
commands the function issues are not needed by the claims). -/
def unregisterInst (supports_iso_broadcaster : Bool) (p_inst : AdvInst) : AdvInst :=
  let p1 := if supports_iso_broadcaster ∧ p_inst.big_handle ≠ INVALID_BIG_HANDLE then
      { p_inst with big_handle := INVALID_BIG_HANDLE } else p_inst
  let p2 := if p1.enable_status then
      { p1 with enable_status := false, advertise_data := [], advertise_data_enc := [],
                scan_response_data := [], scan_response_data_enc := [] } else p1
  let p3 := if p2.periodic_enabled then
      { p2 with periodic_enabled := false, periodic_data := [], periodic_adv_data_enc := [] }
    else p2
  { p3 with in_use := false, skip_rpa_count := 0, skip_rpa := false,
            address_update_required := false }

/-- The chained steps of StartAdvertisingSet after registration succeeded.
Each constructor is one asynchronous command whose completion callback checks
the status, and on a non-zero status calls Unregister, runs the top-level
callback as cb(0, 0, status) and stops the chain. -/
inductive StartStep where
  | setParams : StartStep
  | setRandomAddr : StartStep
  | setAdvData : StartStep
  | setScanRspData : StartStep
  | setPeriodicParams : StartStep
  | setPeriodicData : StartStep
  | setPeriodicEnable : StartStep
  | enableStep : StartStep
  deriving Repr, DecidableEq

/-- The step sequence of the StartAdvertisingSet pipeline: SetParameters,
then SetRandomAddress when the effective own address type is non-public and
RPA generation is not offloaded, then the two SetData calls, then - when the
periodic parameters request enable - the three periodic steps, then Enable. -/
def startSteps (hasRandomAddr usePeriodic : Bool) : List StartStep :=
  [StartStep.setParams] ++
  (if hasRandomAddr then [StartStep.setRandomAddr] else []) ++
  [StartStep.setAdvData, StartStep.setScanRspData] ++
  (if usePeriodic then
    [StartStep.setPeriodicParams, StartStep.setPeriodicData, StartStep.setPeriodicEnable]
   else []) ++
  [StartStep.enableStep]

/-- Shallow embedding of the continuation chain of StartAdvertisingSet after
registration. sigma gives the status each chained command completes with.
The result is (top-level cb invocations as (inst_id, tx_power, status)
triples, whether Unregister was called, the steps actually issued in order).
A non-zero status makes the continuation call Unregister, run cb(0,0,status)
and return; when every step completes with 0 the final Enable continuation
runs cb(inst_id, tx_power, 0). -/
def runStartSteps (instId : Nat) (txPower : Int) (sigma : StartStep → Nat) :
    List StartStep → List (Nat × Int × Nat) × Bool × List StartStep
  | [] => ([(instId, txPower, 0)], false, [])
  | s :: rest =>
    if sigma s ≠ 0 then ([(0, 0, sigma s)], true, [s])
    else
      let r := runStartSteps instId txPower sigma rest
      (r.1, r.2.1, s :: r.2.2)

/-- The encrypted-data gate at the top of StartAdvertisingSet: when any of
the three encrypted buffers is non-empty and the enc_adv_data_enabled flag is
false, cb is run once with (0, 0, ADVERTISE_FAILED_FEATURE_UNSUPPORTED) and
the function returns before RegisterAdvertiserImpl. -/
def startAdvertisingSetGate (advertise_data_enc scan_response_data_enc
    periodic_adv_data_enc : List Nat) (enc_adv_data_enabled : Bool) :
    Option (Nat × Int × Nat) :=
  if advertise_data_enc ≠ [] ∨ scan_response_data_enc ≠ [] ∨
      periodic_adv_data_enc ≠ [] then
    if enc_adv_data_enabled = false then
      some (0, 0, ADVERTISE_FAILED_FEATURE_UNSUPPORTED)
    else none
  else none

/-- The encrypted-data gate at the top of SetData (and of
SetPeriodicAdvertisingData): when encr_data is non-empty and the flag is
false, cb is run once with ADVERTISE_FAILED_FEATURE_UNSUPPORTED. -/
def setDataGate (encr_data : List Nat) (enc_adv_data_enabled : Bool) : Option Nat :=
  if encr_data ≠ [] ∧ enc_adv_data_enabled = false then
    some ADVERTISE_FAILED_FEATURE_UNSUPPORTED
  else none

/-- The result of a StartAdvertisingSet call in the model: the top-level cb
invocations, whether RegisterAdvertiserImpl was reached, whether Unregister
was called, and the pipeline steps issued. -/
structure StartResult where
  cbCalls : List (Nat × Int × Nat)
  registerReached : Bool
  unregisterCalled : Bool
  stepsIssued : List StartStep
  deriving Repr, DecidableEq

/-- Shallow embedding of StartAdvertisingSet: the encrypted-data gate, then
registration (completing with registerStatus), then the chained steps. -/
def startAdvertisingSet (advertise_data_enc scan_response_data_enc
    periodic_adv_data_enc : List Nat) (enc_adv_data_enabled : Bool)
    (registerStatus : Nat) (instId : Nat) (txPower : Int)
    (hasRandomAddr usePeriodic : Bool) (sigma : StartStep → Nat) : StartResult :=
  match startAdvertisingSetGate advertise_data_enc scan_response_data_enc
      periodic_adv_data_enc enc_adv_data_enabled with
  | some r => ⟨[r], false, false, []⟩
  | none =>
    if registerStatus ≠ 0 then ⟨[(0, 0, registerStatus)], true, false, []⟩
    else
      let r := runStartSteps instId txPower sigma (startSteps hasRandomAddr usePeriodic)
      ⟨r.1, true, r.2.1, r.2.2⟩

/-- Shallow embedding of EncryptedAdvertising. The AES-128-CCM cipher is the
opaque parameter: cipher key nonce ad plaintext = (out, out_tag), standing
for EVP_AEAD_CTX_seal_scatter with the key loaded into the AEAD context; the
source writes out into a buffer of the plaintext size and out_tag into a
buffer of the maximum overhead (4 for the bluetooth CCM instance). The GAP
Encrypted Data Key Material characteristic is the pair of parameters
gap_session_key (16 bytes read) and gap_init_vector (first 8 bytes read). -/
def encryptedAdvertising
    (cipher : List Nat → List Nat → List Nat → List Nat → List Nat × List Nat)
    (gap_session_key gap_init_vector : List Nat)
    (p_inst : AdvInst) (data : List Nat) : List Nat :=
  let key := if p_inst.enc_key_value = [] then gap_session_key.take 16
             else p_inst.enc_key_value.take 16
  let iv := if p_inst.enc_key_value = [] then gap_init_vector.take 8
            else (p_inst.enc_key_value.drop 16).take 8
  let nonce := p_inst.randomizer.reverse ++ iv.reverse
  let ad := [0xEA]
  let sealed := cipher key nonce ad data
  let ED_AD_Data := p_inst.randomizer.reverse ++ sealed.1 ++ sealed.2
  let withType := BTM_BLE_AD_TYPE_ED :: ED_AD_Data
  withType.length :: withType

/-- Shallow embedding of GetOwnAddress: the table is indexed with the
caller-supplied inst_id with no range or in_use check; the none result is
the out-of-bounds branch of the total lookup. -/
def getOwnAddress (table : List AdvInst) (inst_id : Nat) : Option (Nat × Nat) :=
  match table.get? inst_id with
  | some p => some (p.own_address_type, p.own_address)
  | none => none

/-- Shallow embedding of OnAdvertisingSetTerminated. The table is indexed
with the caller-supplied advertising_handle before any check; the none
result is the out-of-bounds branch of the total lookup. On the in-bounds
path the result is the updated table, the statuses timeout_cb was invoked
with, and whether a re-enabling HCI Enable command was issued. The ACL
address-association notification is external and not modelled. -/
def onAdvertisingSetTerminated (table : List AdvInst)
    (status advertising_handle : Nat) (now : Nat) :
    Option (List AdvInst × List Nat × Bool) :=
  match table.get? advertising_handle with
  | none => none
  | some p_inst =>
    if status = HCI_ERR_LIMIT_REACHED ∨ status = HCI_ERR_ADVERTISING_TIMEOUT then
      let p1 := { p_inst with enable_status := false }
      if p1.timeout_cb_set = false then
        some (table.set advertising_handle p1, [], false)
      else
        some (table.set advertising_handle p1, [status], false)
    else
      if p_inst.in_use then
        if p_inst.advertising_event_properties &&& 0x0C = 0 then
          let r := recomputeTimeout p_inst now
          some (table.set advertising_handle r.1, r.2, r.1.enable_status)
        else
          some (table.set advertising_handle { p_inst with in_use := false }, [], false)
      else some (table, [], false)

/-- The per-slot state of struct IsoBIGInstance. The creation and
termination callbacks are not part of the modelled state. -/
structure IsoBIGInst where
  big_handle : Nat
  in_use : Bool
  bis_handles : List Nat
  adv_inst_id : Nat
  created_status : Bool
  deriving Repr, DecidableEq

/-- How a BIG completion event was handled: rejected is the early return on
an out-of-range big_handle (before any table access); handled carries the
updated tables; oob is the error branch of a total in-body table lookup,
unreachable when both tables have inst_count entries. -/
inductive BigEventResult where
  | rejected : BigEventResult
  | handled : List AdvInst → List IsoBIGInst → BigEventResult
  | oob : BigEventResult
  deriving Repr, DecidableEq

/-- Shallow embedding of CreateBIGComplete: the big_handle range check comes
first; on success the BIS handles are stored and created_status set; on
failure the BIG slot is released and the parent advertising instance
unbound. -/
def createBIGComplete (inst_count : Nat) (advTable : List AdvInst)
    (bigTable : List IsoBIGInst) (status big_handle : Nat)
    (conn_handle_list : List Nat) : BigEventResult :=
  if big_handle ≥ inst_count then .rejected
  else
    match bigTable.get? big_handle with
    | none => .oob
    | some p_big_inst =>
      if status = HCI_SUCCESS then
        .handled advTable (bigTable.set big_handle
          { p_big_inst with bis_handles := conn_handle_list, created_status := true })
      else
        match advTable.get? p_big_inst.adv_inst_id with
        | none => .oob
        | some p_inst =>
          .handled (advTable.set p_big_inst.adv_inst_id
              { p_inst with big_handle := INVALID_BIG_HANDLE })
            (bigTable.set big_handle
              { p_big_inst with in_use := false, big_handle := INVALID_BIG_HANDLE })

/-- Shallow embedding of TerminateBIGComplete: the big_handle range check
comes first; when cmd_status is false the BIG slot is released and the
parent advertising instance unbound. -/
def terminateBIGComplete (inst_count : Nat) (advTable : List AdvInst)
    (bigTable : List IsoBIGInst) (status big_handle : Nat) (cmd_status : Bool)
    (reason : Nat) : BigEventResult :=
  if big_handle ≥ inst_count then .rejected
  else
    match bigTable.get? big_handle with
    | none => .oob
    | some p_big_inst =>
      if cmd_status = false then
        match advTable.get? p_big_inst.adv_inst_id with
        | none => .oob
        | some p_inst =>
          .handled (advTable.set p_big_inst.adv_inst_id
              { p_inst with big_handle := INVALID_BIG_HANDLE })
            (bigTable.set big_handle
              { p_big_inst with in_use := false, bis_handles := [],
                                created_status := false, big_handle := INVALID_BIG_HANDLE })
      else .handled advTable bigTable

/-- Concrete instance used by the C3 counterexample: enabled, connectable
(bit 0 of the event properties set), with a duration cap and no broadcast
throttle. -/
def encDemoInst : AdvInst :=
  { mkInst with randomizer := [1, 2, 3, 4, 5], enc_key_value := List.range 24 }

def throttleInst : AdvInst :=
  { mkInst with in_use := true, address_update_required := true,
                skip_rpa := true, skip_rpa_count := 2 }

def bothCapsInst : AdvInst :=
  { mkInst with enable_status := true, enable_time := 0, duration := 10,
                maxExtAdvEvents := 10, advertising_interval := 16 }

def deferInst : AdvInst :=
  { mkInst with in_use := true, enable_status := true,
                advertising_event_properties := 1, duration := 1 }


theorem frag_abort (isFirst P : Bool) (data : List Nat) (off : Nat)
    (stats : List Nat) (s : Nat) (hs : s ≠ 0) :
    divideAndSendDataRecursively isFirst P data off stats s = ([], some s) := by
  rw [divideAndSendDataRecursively]
  simp [hs]

theorem fragmentChunkMax_pos (P : Bool) : 0 < fragmentChunkMax P := by
  cases P <;> simp [fragmentChunkMax, EXT_ADV_DATA_LEN_MAX, PERIODIC_ADV_DATA_LEN_MAX]

theorem fragmentChunkMax_eq (P : Bool) :
    (if P = true then PERIODIC_ADV_DATA_LEN_MAX else EXT_ADV_DATA_LEN_MAX) =
      fragmentChunkMax P := rfl

theorem frag_done (P : Bool) (data : List Nat) (stats : List Nat) :
    divideAndSendDataRecursively false P data data.length stats 0 = ([], some 0) := by
  rw [divideAndSendDataRecursively]
  simp

theorem frag_step_inter (P : Bool) (data : List Nat) (offset : Nat) (rest : List Nat)
    (hmore : data.length - offset > fragmentChunkMax P) :
    divideAndSendDataRecursively false P data offset (0 :: rest) 0 =
      (⟨INTERMEDIATE, (data.drop offset).take (fragmentChunkMax P)⟩ ::
        (divideAndSendDataRecursively false P data (offset + fragmentChunkMax P) rest 0).1,
       (divideAndSendDataRecursively false P data (offset + fragmentChunkMax P) rest 0).2) := by
  rw [divideAndSendDataRecursively]
  have h1 : ¬((0:Nat) ≠ 0 ∨ (false = false ∧ offset = data.length)) := by
    simp only [ne_eq, not_true_eq_false, false_or, true_and, not_and]
    intro h
    omega
  rw [if_neg h1]
  simp only [fragmentChunkMax_eq]
  simp [hmore]

theorem frag_step_last (P : Bool) (data : List Nat) (offset : Nat) (rest : List Nat)
    (hoff : offset < data.length)
    (hsmall : data.length - offset ≤ fragmentChunkMax P) :
    divideAndSendDataRecursively false P data offset (0 :: rest) 0 =
      (⟨LAST, data.drop offset⟩ ::
        (divideAndSendDataRecursively false P data data.length rest 0).1,
       (divideAndSendDataRecursively false P data data.length rest 0).2) := by
  rw [divideAndSendDataRecursively]
  have h1 : ¬((0:Nat) ≠ 0 ∨ (false = false ∧ offset = data.length)) := by
    simp only [ne_eq, not_true_eq_false, false_or, true_and]
    omega
  rw [if_neg h1]
  simp only [fragmentChunkMax_eq]
  have hnm : ¬(data.length - offset > fragmentChunkMax P) := by omega
  have h2 : offset + (data.length - offset) = data.length := by omega
  have h3 : (data.drop offset).take (data.length - offset) = data.drop offset := by
    apply List.take_of_length_le
    simp
  simp [hnm, h2, h3]

theorem frag_tail (P : Bool) (data : List Nat) :
    ∀ n offset, offset < data.length →
      (data.length - offset - 1) / fragmentChunkMax P + 1 ≤ n →
      (divideAndSendDataRecursively false P data offset (List.replicate n 0) 0).2 = some 0 ∧
      ((divideAndSendDataRecursively false P data offset (List.replicate n 0) 0).1.map
        Chunk.payload).flatten = data.drop offset ∧
      (divideAndSendDataRecursively false P data offset (List.replicate n 0) 0).1.length =
        (data.length - offset - 1) / fragmentChunkMax P + 1 ∧
      (divideAndSendDataRecursively false P data offset (List.replicate n 0) 0).1.map Chunk.op =
        List.replicate ((data.length - offset - 1) / fragmentChunkMax P) INTERMEDIATE ++ [LAST] := by
  intro n
  induction n with
  | zero => intro offset _ hn; exact absurd hn (Nat.not_succ_le_zero _)
  | succ n ih =>
    intro offset hoff hn
    have hm := fragmentChunkMax_pos P
    rw [List.replicate_succ]
    by_cases hmore : data.length - offset > fragmentChunkMax P
    · -- intermediate fragment, then recurse
      have hdiv : (data.length - offset - 1) / fragmentChunkMax P =
          (data.length - (offset + fragmentChunkMax P) - 1) / fragmentChunkMax P + 1 := by
        have h1 : data.length - offset - 1 =
            (data.length - (offset + fragmentChunkMax P) - 1) + fragmentChunkMax P := by omega
        rw [h1, Nat.add_div_right _ hm]
      have hrec := ih (offset + fragmentChunkMax P) (by omega) (by omega)
      rcases hrec with ⟨h2, hjoin, hlen, hops⟩
      rw [frag_step_inter P data offset _ hmore]
      refine ⟨h2, ?_, ?_, ?_⟩
      · simp only [List.map_cons, List.flatten_cons, hjoin]
        rw [← List.drop_drop]
        exact List.take_append_drop _ _
      · simp [hlen, hdiv]
      · simp only [List.map_cons, hops, hdiv, List.replicate_succ]
        simp
    · -- last fragment
      rw [frag_step_last P data offset _ hoff (by omega)]
      rw [frag_done]
      have hz : (data.length - offset - 1) / fragmentChunkMax P = 0 := by
        apply Nat.div_eq_of_lt
        omega
      simp [hz]

theorem frag_step_complete (P : Bool) (data : List Nat) (rest : List Nat)
    (hsmall : data.length ≤ fragmentChunkMax P) :
    divideAndSendDataRecursively true P data 0 (0 :: rest) 0 =
      (⟨COMPLETE, data⟩ ::
        (divideAndSendDataRecursively false P data data.length rest 0).1,
       (divideAndSendDataRecursively false P data data.length rest 0).2) := by
  rw [divideAndSendDataRecursively]
  have h1 : ¬((0:Nat) ≠ 0 ∨ (true = false ∧ (0:Nat) = data.length)) := by simp
  rw [if_neg h1]
  simp only [fragmentChunkMax_eq]
  have hnm : ¬(fragmentChunkMax P < data.length) := by omega
  simp [hnm]

theorem frag_step_first (P : Bool) (data : List Nat) (rest : List Nat)
    (hmore : data.length > fragmentChunkMax P) :
    divideAndSendDataRecursively true P data 0 (0 :: rest) 0 =
      (⟨FIRST, data.take (fragmentChunkMax P)⟩ ::
        (divideAndSendDataRecursively false P data (fragmentChunkMax P) rest 0).1,
       (divideAndSendDataRecursively false P data (fragmentChunkMax P) rest 0).2) := by
  rw [divideAndSendDataRecursively]
  have h1 : ¬((0:Nat) ≠ 0 ∨ (true = false ∧ (0:Nat) = data.length)) := by simp
  rw [if_neg h1]
  simp only [fragmentChunkMax_eq]
  have hm2 : fragmentChunkMax P < data.length := by omega
  simp [hm2]

theorem frag_main (P : Bool) (data : List Nat) (n : Nat)
    (hn : (if data.length = 0 then 1
           else (data.length + fragmentChunkMax P - 1) / fragmentChunkMax P) ≤ n) :
    (divideAndSendData data P (List.replicate n 0)).2 = some 0 ∧
    ((divideAndSendData data P (List.replicate n 0)).1.map Chunk.payload).flatten = data ∧
    (divideAndSendData data P (List.replicate n 0)).1.length =
      (if data.length = 0 then 1
       else (data.length + fragmentChunkMax P - 1) / fragmentChunkMax P) ∧
    (divideAndSendData data P (List.replicate n 0)).1.map Chunk.op =
      (if data.length ≤ fragmentChunkMax P then [COMPLETE]
       else FIRST :: (List.replicate
         ((data.length + fragmentChunkMax P - 1) / fragmentChunkMax P - 2)
         INTERMEDIATE ++ [LAST])) := by
  have hm := fragmentChunkMax_pos P
  unfold divideAndSendData
  by_cases hlen : data.length = 0
  · -- empty payload: a single COMPLETE chunk of length 0
    have hdata : data = [] := List.eq_nil_of_length_eq_zero hlen
    subst hdata
    simp only [List.length_nil, if_pos rfl] at hn ⊢
    have hn1 : 1 ≤ n := by simpa using hn
    obtain ⟨n, rfl⟩ : ∃ k, n = k + 1 := ⟨n - 1, by omega⟩
    rw [List.replicate_succ, frag_step_complete P [] _ (by simp), frag_done]
    simp
  · by_cases hsmall : data.length ≤ fragmentChunkMax P
    · -- single COMPLETE chunk
      have hcount : (data.length + fragmentChunkMax P - 1) / fragmentChunkMax P = 1 := by
        have h1 : data.length + fragmentChunkMax P - 1 = (data.length - 1) + fragmentChunkMax P := by
          omega
        rw [h1, Nat.add_div_right _ hm,
          Nat.div_eq_of_lt (show data.length - 1 < fragmentChunkMax P by omega)]
      rw [if_neg hlen, hcount] at hn
      obtain ⟨n, rfl⟩ : ∃ k, n = k + 1 := ⟨n - 1, by omega⟩
      rw [List.replicate_succ, frag_step_complete P data _ hsmall, frag_done]
      simp [hlen, hcount, hsmall]
    · -- FIRST, then the tail of the data
      have hmore : data.length > fragmentChunkMax P := by omega
      have hcount : (data.length + fragmentChunkMax P - 1) / fragmentChunkMax P =
          (data.length - fragmentChunkMax P - 1) / fragmentChunkMax P + 2 := by
        have h1 : data.length + fragmentChunkMax P - 1 =
            ((data.length - fragmentChunkMax P - 1) + fragmentChunkMax P) + fragmentChunkMax P := by
          omega
        rw [h1, Nat.add_div_right _ hm, Nat.add_div_right _ hm]
      rw [if_neg hlen, hcount] at hn
      obtain ⟨d, hd⟩ : ∃ d, (data.length - fragmentChunkMax P - 1) / fragmentChunkMax P = d :=
        ⟨_, rfl⟩
      rw [hd] at hn
      obtain ⟨n, rfl⟩ : ∃ k, n = k + 1 := ⟨n - 1, by omega⟩
      rw [List.replicate_succ, frag_step_first P data _ hmore]
      have htail := frag_tail P data n (fragmentChunkMax P) (by omega) (by rw [hd]; omega)
      rcases htail with ⟨h2, hjoin, hlenr, hops⟩
      refine ⟨h2, ?_, ?_, ?_⟩
      · simp only [List.map_cons, List.flatten_cons, hjoin]
        exact List.take_append_drop _ _
      · simp only [List.length_cons, hlenr, if_neg hlen, hcount]
      · simp only [List.map_cons, hops, if_neg hsmall, hcount]
        simp

theorem recompute_duration_exhaust (inst : AdvInst) (now : Nat)
    (hd : inst.duration ≠ 0)
    (hex : (now - inst.enable_time) / 10 + 1 ≥ inst.duration) :
    recomputeTimeout inst now = ({ inst with enable_status := false }, [0]) := by
  unfold recomputeTimeout
  dsimp only
  rw [if_pos hd, if_pos hex]
  dsimp only
  rw [if_neg (by simp)]

theorem recompute_events_exhaust (inst : AdvInst) (now : Nat)
    (hm : inst.maxExtAdvEvents ≠ 0)
    (hdok : inst.duration = 0 ∨ (now - inst.enable_time) / 10 + 1 < inst.duration)
    (hex : (now - inst.enable_time) / (inst.advertising_interval * 5 / 8) + 1 ≥
      inst.maxExtAdvEvents) :
    (recomputeTimeout inst now).1.enable_status = false ∧
    (recomputeTimeout inst now).2 = [0] := by
  unfold recomputeTimeout
  dsimp only
  rcases hdok with hd0 | hlt
  · rw [if_neg (show ¬inst.duration ≠ 0 by simp [hd0])]
    dsimp only
    rw [if_pos (show inst.maxExtAdvEvents ≠ 0 ∧ false = false from ⟨hm, rfl⟩), if_pos hex]
    simp
  · rw [if_pos (show inst.duration ≠ 0 by omega),
        if_neg (show ¬((now - inst.enable_time) / 10 + 1 ≥ inst.duration) by omega)]
    dsimp only
    rw [if_pos (show inst.maxExtAdvEvents ≠ 0 ∧ false = false from ⟨hm, rfl⟩), if_pos hex]
    simp

theorem recompute_adjust (inst : AdvInst) (now : Nat)
    (hd : inst.duration ≠ 0)
    (hdlt : (now - inst.enable_time) / 10 + 1 < inst.duration)
    (hm : inst.maxExtAdvEvents ≠ 0)
    (hmlt : (now - inst.enable_time) / (inst.advertising_interval * 5 / 8) + 1 <
      inst.maxExtAdvEvents) :
    recomputeTimeout inst now =
      ({ inst with duration := inst.duration - (now - inst.enable_time) / 10,
                   maxExtAdvEvents := inst.maxExtAdvEvents -
                     (now - inst.enable_time) / (inst.advertising_interval * 5 / 8) }, []) := by
  unfold recomputeTimeout
  dsimp only
  rw [if_pos hd,
      if_neg (show ¬((now - inst.enable_time) / 10 + 1 ≥ inst.duration) by omega)]
  dsimp only
  rw [if_pos (show inst.maxExtAdvEvents ≠ 0 ∧ false = false from ⟨hm, rfl⟩),
      if_neg (show ¬((now - inst.enable_time) / (inst.advertising_interval * 5 / 8) + 1 ≥
        inst.maxExtAdvEvents) by omega)]

theorem recompute_duration_only (inst : AdvInst) (now : Nat)
    (hd : inst.duration ≠ 0)
    (hdlt : (now - inst.enable_time) / 10 + 1 < inst.duration)
    (hm : inst.maxExtAdvEvents = 0) :
    recomputeTimeout inst now =
      ({ inst with duration := inst.duration - (now - inst.enable_time) / 10 }, []) := by
  unfold recomputeTimeout
  dsimp only
  rw [if_pos hd,
      if_neg (show ¬((now - inst.enable_time) / 10 + 1 ≥ inst.duration) by omega)]
  dsimp only
  rw [if_neg (show ¬(inst.maxExtAdvEvents ≠ 0 ∧ false = false) by simp [hm])]

theorem recompute_events_only (inst : AdvInst) (now : Nat)
    (hd : inst.duration = 0) (hm : inst.maxExtAdvEvents ≠ 0)
    (hmlt : (now - inst.enable_time) / (inst.advertising_interval * 5 / 8) + 1 <
      inst.maxExtAdvEvents) :
    recomputeTimeout inst now =
      ({ inst with maxExtAdvEvents := inst.maxExtAdvEvents -
        (now - inst.enable_time) / (inst.advertising_interval * 5 / 8) }, []) := by
  unfold recomputeTimeout
  dsimp only
  rw [if_neg (show ¬inst.duration ≠ 0 by simp [hd])]
  dsimp only
  rw [if_pos (show inst.maxExtAdvEvents ≠ 0 ∧ false = false from ⟨hm, rfl⟩),
      if_neg (show ¬((now - inst.enable_time) / (inst.advertising_interval * 5 / 8) + 1 ≥
        inst.maxExtAdvEvents) by omega)]

theorem recompute_idle (inst : AdvInst) (now : Nat)
    (hd : inst.duration = 0) (hm : inst.maxExtAdvEvents = 0) :
    recomputeTimeout inst now = (inst, []) := by
  unfold recomputeTimeout
  dsimp only
  rw [if_neg (show ¬inst.duration ≠ 0 by simp [hd])]
  dsimp only
  rw [if_neg (show ¬(inst.maxExtAdvEvents ≠ 0 ∧ false = false) by simp [hm])]

theorem recompute_cb_len (inst : AdvInst) (now : Nat) :
    (recomputeTimeout inst now).2.length ≤ 1 := by
  by_cases h1 : inst.duration ≠ 0
  · by_cases h2 : (now - inst.enable_time) / 10 + 1 ≥ inst.duration
    · rw [recompute_duration_exhaust inst now h1 h2]
      simp
    · by_cases h3 : inst.maxExtAdvEvents ≠ 0
      · by_cases h4 : (now - inst.enable_time) / (inst.advertising_interval * 5 / 8) + 1 ≥
            inst.maxExtAdvEvents
        · rcases recompute_events_exhaust inst now h3 (Or.inr (by omega)) h4 with ⟨-, h⟩
          rw [h]
          simp
        · rw [recompute_adjust inst now h1 (by omega) h3 (by omega)]
          simp
      · rw [recompute_duration_only inst now h1 (by omega) (by omega)]
        simp
  · by_cases h3 : inst.maxExtAdvEvents ≠ 0
    · by_cases h4 : (now - inst.enable_time) / (inst.advertising_interval * 5 / 8) + 1 ≥
          inst.maxExtAdvEvents
      · rcases recompute_events_exhaust inst now h3 (Or.inl (by omega)) h4 with ⟨-, h⟩
        rw [h]
        simp
      · rw [recompute_events_only inst now (by omega) h3 (by omega)]
        simp
    · rw [recompute_idle inst now (by omega) (by omega)]
      simp

theorem configureRpa_throttle (p_inst : AdvInst)
    (hskip : p_inst.skip_rpa = true) (hcnt : 0 < p_inst.skip_rpa_count) :
    configureRpaEntry p_inst =
      ({ p_inst with skip_rpa_count := p_inst.skip_rpa_count - 1 }, RpaOutcome.throttled) := by
  unfold configureRpaEntry
  dsimp only
  rw [if_pos hskip, if_pos hcnt]
  simp

theorem configureRpa_defer (p_inst : AdvInst)
    (hen : p_inst.enable_status = true)
    (hconn : is_connectable p_inst.advertising_event_properties = true)
    (hcap : p_inst.duration ≠ 0 ∨ p_inst.maxExtAdvEvents ≠ 0)
    (hthr : ¬(p_inst.skip_rpa = true ∧ 0 < p_inst.skip_rpa_count)) :
    configureRpaEntry p_inst =
      ({ p_inst with
           skip_rpa_count := if p_inst.skip_rpa then 15 else p_inst.skip_rpa_count,
           address_update_required := true },
       RpaOutcome.deferred 0x01) := by
  unfold configureRpaEntry
  dsimp only
  have hres : (p_inst.enable_status && is_connectable p_inst.advertising_event_properties) = true := by
    rw [hen, hconn]
    rfl
  by_cases hskip : p_inst.skip_rpa
  · have hc0 : ¬(0 < p_inst.skip_rpa_count) := fun h => hthr ⟨hskip, h⟩
    rw [if_pos hskip, if_neg hc0]
    dsimp only
    rw [if_neg (show ¬(false = true) by simp), if_pos (And.intro hres hcap)]
    simp [hskip]
  · rw [if_neg hskip]
    dsimp only
    rw [if_neg (show ¬(false = true) by simp), if_pos (And.intro hres hcap)]
    simp [hskip]

theorem runStartSteps_firstFailure (instId : Nat) (txPower : Int)
    (sigma : StartStep → Nat) :
    ∀ (pre : List StartStep) (s : StartStep) (post : List StartStep),
      (∀ t ∈ pre, sigma t = 0) → sigma s ≠ 0 →
      runStartSteps instId txPower sigma (pre ++ s :: post) =
        ([(0, 0, sigma s)], true, pre ++ [s]) := by
  intro pre
  induction pre with
  | nil =>
    intro s post _ hs
    rw [List.nil_append, runStartSteps]
    simp [hs]
  | cons t rest ih =>
    intro s post hpre hs
    have ht : sigma t = 0 := hpre t (List.mem_cons_self t rest)
    rw [List.cons_append, runStartSteps]
    have hrec := ih s post (fun u hu => hpre u (List.mem_cons_of_mem t hu)) hs
    simp [ht, hrec]

theorem runStartSteps_allOk (instId : Nat) (txPower : Int)
    (sigma : StartStep → Nat) :
    ∀ (steps : List StartStep), (∀ t ∈ steps, sigma t = 0) →
      runStartSteps instId txPower sigma steps =
        ([(instId, txPower, 0)], false, steps) := by
  intro steps
  induction steps with
  | nil => intro _; rw [runStartSteps]
  | cons t rest ih =>
    intro hok
    have ht : sigma t = 0 := hok t (List.mem_cons_self t rest)
    rw [runStartSteps]
    have hrec := ih (fun u hu => hok u (List.mem_cons_of_mem t hu))
    simp [ht, hrec]

theorem unregisterInst_not_in_use (supports_iso_broadcaster : Bool) (p_inst : AdvInst) :
    (unregisterInst supports_iso_broadcaster p_inst).in_use = false := by
  unfold unregisterInst
  dsimp only

theorem enable_bad_id (inst_count : Nat) (table : List AdvInst) (inst_id : Nat)
    (en : Bool) (d m : Nat) (off : Bool) (now hci : Nat)
    (h : inst_count ≤ inst_id) :
    enable inst_count table inst_id en d m off now hci = (table, some []) := by
  unfold enable
  rw [if_pos h]

theorem enable_not_in_use (inst_count : Nat) (table : List AdvInst) (inst_id : Nat)
    (en : Bool) (d m : Nat) (off : Bool) (now hci : Nat) (p_inst : AdvInst)
    (hid : inst_id < inst_count) (hget : table.get? inst_id = some p_inst)
    (huse : p_inst.in_use = false) :
    enable inst_count table inst_id en d m off now hci =
      (table, some [BTM_BLE_MULTI_ADV_FAILURE]) := by
  unfold enable
  rw [if_neg (by omega), hget]
  dsimp only
  rw [if_pos huse]

theorem enable_direct (inst_count : Nat) (table : List AdvInst) (inst_id : Nat)
    (en : Bool) (d m : Nat) (off : Bool) (now hci : Nat) (p_inst : AdvInst)
    (hid : inst_id < inst_count) (hget : table.get? inst_id = some p_inst)
    (huse : p_inst.in_use = true)
    (hnorpa : off = true ∨ en = false ∨ p_inst.address_update_required = false) :
    (enable inst_count table inst_id en d m off now hci).2 = some [hci] := by
  unfold enable
  rw [if_neg (by omega), hget]
  dsimp only
  rw [if_neg (by simp [huse])]
  have hcond : ¬(off = false ∧ en = true ∧
      (if en = true ∧ (d ≠ 0 ∨ m ≠ 0) then { p_inst with timeout_cb_set := true }
       else p_inst).address_update_required = true) := by
    rcases hnorpa with h | h | h
    · intro hc; rw [h] at hc; exact absurd hc.1 (by simp)
    · intro hc; rw [h] at hc; exact absurd hc.2.1 (by simp)
    · intro hc
      rcases hc with ⟨-, -, hc⟩
      by_cases hto : en = true ∧ (d ≠ 0 ∨ m ≠ 0)
      · rw [if_pos hto] at hc
        dsimp only at hc
        rw [h] at hc
        exact absurd hc (by simp)
      · rw [if_neg hto] at hc
        rw [h] at hc
        exact absurd hc (by simp)
  rw [if_neg (by
    intro hc
    exact hcond ⟨hc.1, hc.2.1, hc.2.2⟩)]
  rfl

theorem enable_throttled_no_cb (inst_count : Nat) (table : List AdvInst) (inst_id : Nat)
    (d m : Nat) (now hci : Nat) (p_inst : AdvInst)
    (hid : inst_id < inst_count) (hget : table.get? inst_id = some p_inst)
    (huse : p_inst.in_use = true)
    (hupd : p_inst.address_update_required = true)
    (hskip : p_inst.skip_rpa = true) (hcnt : 0 < p_inst.skip_rpa_count) :
    (enable inst_count table inst_id true d m false now hci).2 = some [] := by
  unfold enable
  rw [if_neg (by omega), hget]
  dsimp only
  rw [if_neg (by simp [huse])]
  have hupd2 : (if true = true ∧ (d ≠ 0 ∨ m ≠ 0) then { p_inst with timeout_cb_set := true }
      else p_inst).address_update_required = true := by
    by_cases hto : true = true ∧ (d ≠ 0 ∨ m ≠ 0)
    · rw [if_pos hto]
      exact hupd
    · rw [if_neg hto]
      exact hupd
  rw [if_pos ⟨rfl, rfl, hupd2⟩]
  have hthr := configureRpa_throttle
    { (if true = true ∧ (d ≠ 0 ∨ m ≠ 0) then { p_inst with timeout_cb_set := true }
       else p_inst) with
      duration := d, maxExtAdvEvents := m, address_update_required := false }
    (by
      by_cases hto : true = true ∧ (d ≠ 0 ∨ m ≠ 0)
      · rw [if_pos hto]
        exact hskip
      · rw [if_neg hto]
        exact hskip)
    (by
      by_cases hto : true = true ∧ (d ≠ 0 ∨ m ≠ 0)
      · rw [if_pos hto]
        exact hcnt
      · rw [if_neg hto]
        exact hcnt)
  rw [hthr]

theorem encryptedAdvertising_shape
    (cipher : List Nat → List Nat → List Nat → List Nat → List Nat × List Nat)
    (gap_session_key gap_init_vector : List Nat) (p_inst : AdvInst)
    (data key iv ct tag : List Nat)
    (hr : p_inst.randomizer.length = 5)
    (hgk : gap_session_key.length = 16) (hgi : gap_init_vector.length = 8)
    (hk24 : p_inst.enc_key_value ≠ [] → p_inst.enc_key_value.length = 24)
    (hkey : key = if p_inst.enc_key_value = [] then gap_session_key
                  else p_inst.enc_key_value.take 16)
    (hiv : iv = if p_inst.enc_key_value = [] then gap_init_vector
                else p_inst.enc_key_value.drop 16)
    (hc : cipher key (p_inst.randomizer.reverse ++ iv.reverse) [0xEA] data = (ct, tag))
    (hct : ct.length = data.length) (htag : tag.length = 4) :
    encryptedAdvertising cipher gap_session_key gap_init_vector p_inst data =
      (1 + (5 + data.length + 4)) :: BTM_BLE_AD_TYPE_ED ::
        (p_inst.randomizer.reverse ++ ct ++ tag) := by
  unfold encryptedAdvertising
  dsimp only
  by_cases he : p_inst.enc_key_value = []
  · rw [if_pos he] at hkey hiv
    subst hkey
    subst hiv
    rw [if_pos he, if_pos he]
    rw [List.take_of_length_le (le_of_eq hgk), List.take_of_length_le (le_of_eq hgi)]
    rw [hc]
    dsimp only
    congr 1
    simp only [List.length_cons, List.length_append, List.length_reverse, hr, hct, htag]
    omega
  · rw [if_neg he] at hkey hiv
    subst hkey
    subst hiv
    rw [if_neg he, if_neg he]
    have hdroplen : (p_inst.enc_key_value.drop 16).length = 8 := by
      rw [List.length_drop, hk24 he]
    rw [List.take_of_length_le (le_of_eq hdroplen)]
    rw [hc]
    dsimp only
    congr 1
    simp only [List.length_cons, List.length_append, List.length_reverse, hr, hct, htag]
    omega

theorem getOwnAddress_inBounds (table : List AdvInst) (inst_id : Nat)
    (h : inst_id < table.length) : (getOwnAddress table inst_id).isSome = true := by
  unfold getOwnAddress
  rw [List.get?_eq_get h]
  rfl

theorem getOwnAddress_oob (table : List AdvInst) (inst_id : Nat)
    (h : table.length ≤ inst_id) : getOwnAddress table inst_id = none := by
  unfold getOwnAddress
  rw [List.get?_eq_none.mpr h]

theorem onAdvertisingSetTerminated_inBounds (table : List AdvInst)
    (status handle now : Nat) (h : handle < table.length) :
    (onAdvertisingSetTerminated table status handle now).isSome = true := by
  unfold onAdvertisingSetTerminated
  rw [List.get?_eq_get h]
  dsimp only
  split
  · split <;> rfl
  · split
    · split <;> rfl
    · rfl

theorem onAdvertisingSetTerminated_oob (table : List AdvInst)
    (status handle now : Nat) (h : table.length ≤ handle) :
    onAdvertisingSetTerminated table status handle now = none := by
  unfold onAdvertisingSetTerminated
  rw [List.get?_eq_none.mpr h]

theorem createBIGComplete_rejected (inst_count : Nat) (advTable : List AdvInst)
    (bigTable : List IsoBIGInst) (status big_handle : Nat) (l : List Nat)
    (h : inst_count ≤ big_handle) :
    createBIGComplete inst_count advTable bigTable status big_handle l =
      BigEventResult.rejected := by
  unfold createBIGComplete
  rw [if_pos h]

theorem terminateBIGComplete_rejected (inst_count : Nat) (advTable : List AdvInst)
    (bigTable : List IsoBIGInst) (status big_handle : Nat) (cs : Bool) (r : Nat)
    (h : inst_count ≤ big_handle) :
    terminateBIGComplete inst_count advTable bigTable status big_handle cs r =
      BigEventResult.rejected := by
  unfold terminateBIGComplete
  rw [if_pos h]

theorem createBIGComplete_not_rejected (inst_count : Nat) (advTable : List AdvInst)
    (bigTable : List IsoBIGInst) (status big_handle : Nat) (l : List Nat)
    (h : big_handle < inst_count) :
    createBIGComplete inst_count advTable bigTable status big_handle l ≠
      BigEventResult.rejected := by
  unfold createBIGComplete
  rw [if_neg (by omega)]
  cases hb : bigTable.get? big_handle with
  | none => simp
  | some b =>
    dsimp only
    split
    · simp
    · cases ha : advTable.get? b.adv_inst_id <;> simp

/-- C1: with every per-chunk status zero, the fragmenter emits exactly one
COMPLETE chunk when the payload fits in one chunk (251 bytes non-periodic,
252 periodic; an empty payload is one COMPLETE of length 0), otherwise FIRST,
then zero or more INTERMEDIATE, then LAST; the chunk payloads concatenate in
delivery order to the original payload; the chunk count is
ceil(len / chunk_max) (1 for the empty payload); and a chained continuation
receiving a non-zero status stops at once and reports that status to
done_cb. -/
theorem C1_fragmenter (P : Bool) (data : List Nat) (n : Nat)
    (hn : (if data.length = 0 then 1
           else (data.length + fragmentChunkMax P - 1) / fragmentChunkMax P) ≤ n) :
    ((divideAndSendData data P (List.replicate n 0)).2 = some 0 ∧
     ((divideAndSendData data P (List.replicate n 0)).1.map Chunk.payload).flatten = data ∧
     (divideAndSendData data P (List.replicate n 0)).1.length =
       (if data.length = 0 then 1
        else (data.length + fragmentChunkMax P - 1) / fragmentChunkMax P) ∧
     (divideAndSendData data P (List.replicate n 0)).1.map Chunk.op =
       (if data.length ≤ fragmentChunkMax P then [COMPLETE]
        else FIRST :: (List.replicate
          ((data.length + fragmentChunkMax P - 1) / fragmentChunkMax P - 2)
          INTERMEDIATE ++ [LAST]))) ∧
    (∀ (isFirst : Bool) (off : Nat) (stats : List Nat) (s : Nat), s ≠ 0 →
      divideAndSendDataRecursively isFirst P data off stats s = ([], some s)) :=
  ⟨frag_main P data n hn,
   fun isFirst off stats s hs => frag_abort isFirst P data off stats s hs⟩

set_option maxRecDepth 4000 in
/-- Witness for C1 at a concrete 300-byte non-periodic payload. -/
theorem C1_fragmenter_witness :
    ((if (List.replicate 300 7 : List Nat).length = 0 then 1
      else ((List.replicate 300 7 : List Nat).length + fragmentChunkMax false - 1) /
        fragmentChunkMax false) ≤ 2) ∧
    (((divideAndSendData (List.replicate 300 7) false (List.replicate 2 0)).2 = some 0 ∧
      ((divideAndSendData (List.replicate 300 7) false
        (List.replicate 2 0)).1.map Chunk.payload).flatten = List.replicate 300 7 ∧
      (divideAndSendData (List.replicate 300 7) false (List.replicate 2 0)).1.length =
        (if (List.replicate 300 7 : List Nat).length = 0 then 1
         else ((List.replicate 300 7 : List Nat).length + fragmentChunkMax false - 1) /
           fragmentChunkMax false) ∧
      (divideAndSendData (List.replicate 300 7) false (List.replicate 2 0)).1.map Chunk.op =
        (if (List.replicate 300 7 : List Nat).length ≤ fragmentChunkMax false then [COMPLETE]
         else FIRST :: (List.replicate
           (((List.replicate 300 7 : List Nat).length + fragmentChunkMax false - 1) /
             fragmentChunkMax false - 2)
           INTERMEDIATE ++ [LAST]))) ∧
     (∀ (isFirst : Bool) (off : Nat) (stats : List Nat) (s : Nat), s ≠ 0 →
       divideAndSendDataRecursively isFirst false (List.replicate 300 7) off stats s =
         ([], some s))) :=
  ⟨by decide, C1_fragmenter false (List.replicate 300 7) 2 (by decide)⟩

/-- C2: RecomputeTimeout subtracts elapsed/10 ms from a nonzero duration and,
separately, elapsed_ms / (advertising_interval * 5 / 8) events from a nonzero
maxExtAdvEvents; a budget exhausted within one tick disables the set and runs
timeout_cb, otherwise the budgets are overwritten with the remainders; and
the three concrete scenarios of the source tests hold. -/
theorem C2_recomputeTimeout :
    (∀ (inst : AdvInst) (now : Nat), inst.duration ≠ 0 →
      inst.duration ≤ (now - inst.enable_time) / 10 + 1 →
      recomputeTimeout inst now = ({ inst with enable_status := false }, [0])) ∧
    (∀ (inst : AdvInst) (now : Nat), inst.maxExtAdvEvents ≠ 0 →
      (inst.duration = 0 ∨ (now - inst.enable_time) / 10 + 1 < inst.duration) →
      inst.maxExtAdvEvents ≤
        (now - inst.enable_time) / (inst.advertising_interval * 5 / 8) + 1 →
      (recomputeTimeout inst now).1.enable_status = false ∧
      (recomputeTimeout inst now).2 = [0]) ∧
    (∀ (inst : AdvInst) (now : Nat), inst.duration ≠ 0 →
      (now - inst.enable_time) / 10 + 1 < inst.duration →
      inst.maxExtAdvEvents ≠ 0 →
      (now - inst.enable_time) / (inst.advertising_interval * 5 / 8) + 1 <
        inst.maxExtAdvEvents →
      recomputeTimeout inst now =
        ({ inst with duration := inst.duration - (now - inst.enable_time) / 10,
                     maxExtAdvEvents := inst.maxExtAdvEvents -
                       (now - inst.enable_time) / (inst.advertising_interval * 5 / 8) },
         [])) ∧
    (∀ (inst : AdvInst) (now : Nat), inst.duration ≠ 0 →
      (now - inst.enable_time) / 10 + 1 < inst.duration →
      inst.maxExtAdvEvents = 0 →
      recomputeTimeout inst now =
        ({ inst with duration := inst.duration - (now - inst.enable_time) / 10 }, [])) ∧
    (∀ (inst : AdvInst) (now : Nat), inst.duration = 0 →
      inst.maxExtAdvEvents ≠ 0 →
      (now - inst.enable_time) / (inst.advertising_interval * 5 / 8) + 1 <
        inst.maxExtAdvEvents →
      recomputeTimeout inst now =
        ({ inst with maxExtAdvEvents := inst.maxExtAdvEvents -
            (now - inst.enable_time) / (inst.advertising_interval * 5 / 8) }, [])) ∧
    recomputeTimeout recomputeTest1 111 =
      ({ recomputeTest1 with enable_status := false }, [0]) ∧
    (recomputeTimeout recomputeTest2 250).1.enable_status = true ∧
    (recomputeTimeout recomputeTest2 250).1.duration = 25 ∧
    (recomputeTimeout recomputeTest2 250).1.maxExtAdvEvents = 25 ∧
    (recomputeTimeout recomputeTest2 250).2 = [] ∧
    (recomputeTimeout recomputeTest3 495).1.enable_status = false ∧
    (recomputeTimeout recomputeTest3 495).2 = [0] := by
  refine ⟨?_, ?_, ?_, ?_, ?_, by decide, by decide, by decide, by decide, by decide,
    by decide, by decide⟩
  · intro inst now hd hex
    exact recompute_duration_exhaust inst now hd hex
  · intro inst now hm hdok hex
    exact recompute_events_exhaust inst now hm hdok hex
  · intro inst now hd hdlt hm hmlt
    exact recompute_adjust inst now hd hdlt hm hmlt
  · intro inst now hd hdlt hm
    exact recompute_duration_only inst now hd hdlt hm
  · intro inst now hd hm hmlt
    exact recompute_events_only inst now hd hm hmlt

/-- Witness for C2: the duration-exhaustion conjunct at the first source
test scenario. -/
theorem C2_recomputeTimeout_witness :
    recomputeTest1.duration ≠ 0 ∧
    recomputeTest1.duration ≤ (111 - recomputeTest1.enable_time) / 10 + 1 ∧
    recomputeTimeout recomputeTest1 111 =
      ({ recomputeTest1 with enable_status := false }, [0]) :=
  ⟨by decide, by decide, C2_recomputeTimeout.1 recomputeTest1 111 (by decide) (by decide)⟩

/-- C3 counterexample: on a connectable, enabled, duration-capped set the
deferral path of ConfigureRpa invokes configuredCb with status 0x01, which is
not the success code 0x00 used by the address-update path. -/
theorem C3_defer_status_counterexample :
    (configureRpaEntry deferInst).2 = RpaOutcome.deferred 0x01 ∧
    (configureRpaEntry deferInst).2 ≠ RpaOutcome.deferred BTM_BLE_MULTI_ADV_SUCCESS := by
  decide

/-- C3 (amended): for every instance that is enabled, connectable and has a
duration or event cap, and is not throttled away by the broadcast skip_rpa
counter, ConfigureRpa defers the rotation: it sets address_update_required,
generates no address and issues no HCI command, and invokes configuredCb once
with status 0x01 (not the 0x00 success code). -/
theorem C3_defer_rotation (p_inst : AdvInst)
    (hen : p_inst.enable_status = true)
    (hconn : is_connectable p_inst.advertising_event_properties = true)
    (hcap : p_inst.duration ≠ 0 ∨ p_inst.maxExtAdvEvents ≠ 0)
    (hthr : ¬(p_inst.skip_rpa = true ∧ 0 < p_inst.skip_rpa_count)) :
    configureRpaEntry p_inst =
      ({ p_inst with
           skip_rpa_count := if p_inst.skip_rpa then 15 else p_inst.skip_rpa_count,
           address_update_required := true },
       RpaOutcome.deferred 0x01) :=
  configureRpa_defer p_inst hen hconn hcap hthr

/-- Witness for C3 (amended) at the concrete deferInst. -/
theorem C3_defer_rotation_witness :
    deferInst.enable_status = true ∧
    is_connectable deferInst.advertising_event_properties = true ∧
    (deferInst.duration ≠ 0 ∨ deferInst.maxExtAdvEvents ≠ 0) ∧
    ¬(deferInst.skip_rpa = true ∧ 0 < deferInst.skip_rpa_count) ∧
    configureRpaEntry deferInst =
      ({ deferInst with
           skip_rpa_count := if deferInst.skip_rpa then 15 else deferInst.skip_rpa_count,
           address_update_required := true },
       RpaOutcome.deferred 0x01) :=
  ⟨by decide, by decide, by decide, by decide,
   C3_defer_rotation deferInst (by decide) (by decide) (by decide) (by decide)⟩

/-- C4: in the StartAdvertisingSet pipeline, a non-zero status injected at
any chained step after registration succeeded makes the continuation call
Unregister (so the instance returns to in_use = false), run the top-level
callback exactly once as cb(0, 0, status), and issue no further pipeline
command for the instance. -/
theorem C4_start_failure_rollback (hasRandomAddr usePeriodic : Bool)
    (sigma : StartStep → Nat) (instId : Nat) (txPower : Int)
    (pre : List StartStep) (s : StartStep) (post : List StartStep)
    (hsplit : startSteps hasRandomAddr usePeriodic = pre ++ s :: post)
    (hpre : ∀ t ∈ pre, sigma t = 0) (hs : sigma s ≠ 0) :
    runStartSteps instId txPower sigma (startSteps hasRandomAddr usePeriodic) =
      ([(0, 0, sigma s)], true, pre ++ [s]) ∧
    (∀ (supports_iso : Bool) (p_inst : AdvInst),
      (unregisterInst supports_iso p_inst).in_use = false) := by
  constructor
  · rw [hsplit]
    exact runStartSteps_firstFailure instId txPower sigma pre s post hpre hs
  · exact unregisterInst_not_in_use

/-- Witness for C4: a failure with status 7 at the SetParameters step of the
minimal pipeline. -/
theorem C4_start_failure_rollback_witness :
    startSteps false false = [] ++ StartStep.setParams ::
      [StartStep.setAdvData, StartStep.setScanRspData, StartStep.enableStep] ∧
    (∀ t ∈ ([] : List StartStep),
      (fun t => if t = StartStep.setParams then 7 else 0) t = 0) ∧
    (fun t => if t = StartStep.setParams then 7 else 0) StartStep.setParams ≠ 0 ∧
    (runStartSteps 0 0 (fun t => if t = StartStep.setParams then 7 else 0)
        (startSteps false false) =
      ([(0, 0, (fun t => if t = StartStep.setParams then 7 else 0) StartStep.setParams)],
       true, [] ++ [StartStep.setParams]) ∧
     (∀ (supports_iso : Bool) (p_inst : AdvInst),
       (unregisterInst supports_iso p_inst).in_use = false)) :=
  ⟨by decide, by decide, by decide,
   C4_start_failure_rollback false false
     (fun t => if t = StartStep.setParams then 7 else 0) 0 0
     [] StartStep.setParams [StartStep.setAdvData, StartStep.setScanRspData,
       StartStep.enableStep]
     (by decide) (by decide) (by decide)⟩

/-- C5: when any encrypted buffer is non-empty while enc_adv_data_enabled is
false, StartAdvertisingSet fails at once with FEATURE_UNSUPPORTED = 0x05,
registers no instance and issues no command, and SetData fails the same way;
with all encrypted buffers empty or the flag true the gate does not fire. -/
theorem C5_encrypted_data_gate :
    (∀ (advEnc scanEnc perEnc : List Nat) (registerStatus : Nat) (instId : Nat)
        (txPower : Int) (hasRA usePer : Bool) (sigma : StartStep → Nat),
      advEnc ≠ [] ∨ scanEnc ≠ [] ∨ perEnc ≠ [] →
      startAdvertisingSet advEnc scanEnc perEnc false registerStatus instId txPower
          hasRA usePer sigma =
        ⟨[(0, 0, ADVERTISE_FAILED_FEATURE_UNSUPPORTED)], false, false, []⟩) ∧
    (∀ (advEnc scanEnc perEnc : List Nat) (flag : Bool) (registerStatus : Nat)
        (instId : Nat) (txPower : Int) (hasRA usePer : Bool) (sigma : StartStep → Nat),
      (advEnc = [] ∧ scanEnc = [] ∧ perEnc = []) ∨ flag = true →
      (startAdvertisingSet advEnc scanEnc perEnc flag registerStatus instId txPower
          hasRA usePer sigma).registerReached = true) ∧
    (∀ encr_data : List Nat, encr_data ≠ [] →
      setDataGate encr_data false = some ADVERTISE_FAILED_FEATURE_UNSUPPORTED) ∧
    (∀ (encr_data : List Nat) (flag : Bool), encr_data = [] ∨ flag = true →
      setDataGate encr_data flag = none) := by
  refine ⟨?_, ?_, ?_, ?_⟩
  · intro advEnc scanEnc perEnc registerStatus instId txPower hasRA usePer sigma hne
    unfold startAdvertisingSet startAdvertisingSetGate
    rw [if_pos hne, if_pos rfl]
  · intro advEnc scanEnc perEnc flag registerStatus instId txPower hasRA usePer sigma hok
    unfold startAdvertisingSet startAdvertisingSetGate
    have hgate : (if advEnc ≠ [] ∨ scanEnc ≠ [] ∨ perEnc ≠ [] then
        (if flag = false then
          some ((0 : Nat), (0 : Int), ADVERTISE_FAILED_FEATURE_UNSUPPORTED) else none)
        else none) = none := by
      rcases hok with ⟨h1, h2, h3⟩ | hf
      · rw [if_neg (by simp [h1, h2, h3])]
      · by_cases hne : advEnc ≠ [] ∨ scanEnc ≠ [] ∨ perEnc ≠ []
        · rw [if_pos hne, if_neg (by simp [hf])]
        · rw [if_neg hne]
    rw [hgate]
    dsimp only
    by_cases hr : registerStatus ≠ 0
    · rw [if_pos hr]
    · rw [if_neg hr]
  · intro encr_data hne
    unfold setDataGate
    rw [if_pos ⟨hne, rfl⟩]
  · intro encr_data flag hok
    unfold setDataGate
    rcases hok with he | hf
    · rw [if_neg (by simp [he])]
    · rw [if_neg (by simp [hf])]

/-- Witness for C5: a non-empty encrypted advertising buffer with the
feature flag off. -/
theorem C5_encrypted_data_gate_witness :
    (([1] : List Nat) ≠ [] ∨ ([] : List Nat) ≠ [] ∨ ([] : List Nat) ≠ []) ∧
    startAdvertisingSet [1] [] [] false 0 2 7 false false (fun _ => 0) =
      ⟨[(0, 0, ADVERTISE_FAILED_FEATURE_UNSUPPORTED)], false, false, []⟩ :=
  ⟨by decide,
   C5_encrypted_data_gate.1 [1] [] [] 0 2 7 false false (fun _ => 0) (by decide)⟩

/-- C6: with the CCM cipher opaque, EncryptedAdvertising selects the key and
IV as the first 16 and last 8 bytes of a 24-byte user enc_key_value, or from
the GAP key material when enc_key_value is empty; the 13-byte nonce is the
byte-reversed randomizer followed by the byte-reversed IV; the associated
data is the single byte 0xEA; and the result is the LTV
[total_length][0x31][reversed-randomizer, ciphertext, 4-byte MIC] with the
ciphertext of the plaintext length and total_length = 1 + 5 + len + 4. -/
theorem C6_encrypted_advertising
    (cipher : List Nat → List Nat → List Nat → List Nat → List Nat × List Nat)
    (gap_session_key gap_init_vector : List Nat) (p_inst : AdvInst)
    (data key iv ct tag : List Nat)
    (hr : p_inst.randomizer.length = 5)
    (hgk : gap_session_key.length = 16) (hgi : gap_init_vector.length = 8)
    (hk24 : p_inst.enc_key_value ≠ [] → p_inst.enc_key_value.length = 24)
    (hkey : key = if p_inst.enc_key_value = [] then gap_session_key
                  else p_inst.enc_key_value.take 16)
    (hiv : iv = if p_inst.enc_key_value = [] then gap_init_vector
                else p_inst.enc_key_value.drop 16)
    (hc : cipher key (p_inst.randomizer.reverse ++ iv.reverse) [0xEA] data = (ct, tag))
    (hct : ct.length = data.length) (htag : tag.length = 4) :
    encryptedAdvertising cipher gap_session_key gap_init_vector p_inst data =
      (1 + (5 + data.length + 4)) :: BTM_BLE_AD_TYPE_ED ::
        (p_inst.randomizer.reverse ++ ct ++ tag) :=
  encryptedAdvertising_shape cipher gap_session_key gap_init_vector p_inst data
    key iv ct tag hr hgk hgi hk24 hkey hiv hc hct htag

/-- Witness for C6: an identity cipher with a zero MIC, a 24-byte user key
material, the randomizer 0x0102030405 and the broadcast-audio AD as
plaintext. -/
theorem C6_encrypted_advertising_witness :
    encDemoInst.randomizer.length = 5 ∧
    (List.replicate 16 0 : List Nat).length = 16 ∧
    (List.replicate 8 0 : List Nat).length = 8 ∧
    (encDemoInst.enc_key_value ≠ [] → encDemoInst.enc_key_value.length = 24) ∧
    encryptedAdvertising (fun _ _ _ p => (p, [0, 0, 0, 0]))
        (List.replicate 16 0) (List.replicate 8 0) encDemoInst
        [3, 0x16, 0x51, 0x18] =
      (1 + (5 + ([3, 0x16, 0x51, 0x18] : List Nat).length + 4)) :: BTM_BLE_AD_TYPE_ED ::
        (encDemoInst.randomizer.reverse ++ [3, 0x16, 0x51, 0x18] ++ [0, 0, 0, 0]) :=
  ⟨by decide, by decide, by decide, fun _ => by decide,
   C6_encrypted_advertising (fun _ _ _ p => (p, [0, 0, 0, 0]))
     (List.replicate 16 0) (List.replicate 8 0) encDemoInst [3, 0x16, 0x51, 0x18]
     ((List.range 24).take 16) ((List.range 24).drop 16)
     [3, 0x16, 0x51, 0x18] [0, 0, 0, 0]
     (by decide) (by decide) (by decide) (fun _ => by decide)
     (by decide) (by decide) (by decide) (by decide) (by decide)⟩


/-- C7 counterexample: with one instance slot, Enable on inst_id 3 (at or
beyond inst_count) returns without invoking the completion callback at all,
so the callback does not fire exactly once for inst_id at or beyond
inst_count. -/
theorem C7_bad_id_counterexample :
    (enable 1 [mkInst] 3 true 0 0 false 0 0).2 = some [] := by decide

/-- C7 (amended): the Enable completion callback fires exactly once with the
chained enable result when the instance is allocated and no deferred RPA
rotation is pending, and exactly once with MULTI_ADV_FAILURE when the
instance is not in use; but for inst_id at or beyond inst_count the call
returns early and the callback never fires. -/
theorem C7_enable_callback (inst_count : Nat) (table : List AdvInst)
    (inst_id : Nat) (en : Bool) (d m : Nat) (off : Bool) (now hci : Nat) :
    (inst_count ≤ inst_id →
      enable inst_count table inst_id en d m off now hci = (table, some [])) ∧
    (∀ p_inst : AdvInst, inst_id < inst_count → table.get? inst_id = some p_inst →
      p_inst.in_use = false →
      enable inst_count table inst_id en d m off now hci =
        (table, some [BTM_BLE_MULTI_ADV_FAILURE])) ∧
    (∀ p_inst : AdvInst, inst_id < inst_count → table.get? inst_id = some p_inst →
      p_inst.in_use = true →
      (off = true ∨ en = false ∨ p_inst.address_update_required = false) →
      (enable inst_count table inst_id en d m off now hci).2 = some [hci]) := by
  refine ⟨?_, ?_, ?_⟩
  · intro h
    exact enable_bad_id inst_count table inst_id en d m off now hci h
  · intro p_inst hid hget huse
    exact enable_not_in_use inst_count table inst_id en d m off now hci p_inst hid hget huse
  · intro p_inst hid hget huse hnorpa
    exact enable_direct inst_count table inst_id en d m off now hci p_inst hid hget huse hnorpa

/-- Witness for C7 (amended): an allocated instance with no pending rotation
completes once with the HCI status 9. -/
theorem C7_enable_callback_witness :
    (0 < 1) ∧ ([{ mkInst with in_use := true }] : List AdvInst).get? 0 =
      some { mkInst with in_use := true } ∧
    ({ mkInst with in_use := true } : AdvInst).in_use = true ∧
    ((false : Bool) = true ∨ (true : Bool) = false ∨
      ({ mkInst with in_use := true } : AdvInst).address_update_required = false) ∧
    (enable 1 [{ mkInst with in_use := true }] 0 true 5 0 false 0 9).2 = some [9] :=
  ⟨by decide, by decide, by decide, by decide,
   (C7_enable_callback 1 [{ mkInst with in_use := true }] 0 true 5 0 false 0 9).2.2
     { mkInst with in_use := true } (by decide) (by decide) (by decide) (by decide)⟩

/-- C8: for a broadcast-throttled instance (skip_rpa with a positive
skip_rpa_count), ConfigureRpa only decrements the counter and returns - no
address generation, no HCI command, every other field unchanged, and
configuredCb is never invoked - so an Enable call that entered ConfigureRpa
through the address_update_required path never completes its own callback. -/
theorem C8_skip_rpa_throttle (p_inst : AdvInst)
    (hskip : p_inst.skip_rpa = true) (hcnt : 0 < p_inst.skip_rpa_count) :
    configureRpaEntry p_inst =
      ({ p_inst with skip_rpa_count := p_inst.skip_rpa_count - 1 },
       RpaOutcome.throttled) ∧
    (∀ (inst_count : Nat) (table : List AdvInst) (inst_id d m now hci : Nat),
      inst_id < inst_count → table.get? inst_id = some p_inst →
      p_inst.in_use = true → p_inst.address_update_required = true →
      (enable inst_count table inst_id true d m false now hci).2 = some []) :=
  ⟨configureRpa_throttle p_inst hskip hcnt,
   fun inst_count table inst_id d m now hci hid hget huse hupd =>
     enable_throttled_no_cb inst_count table inst_id d m now hci p_inst hid hget
       huse hupd hskip hcnt⟩

/-- Witness for C8 at a concrete throttled broadcast instance. -/
theorem C8_skip_rpa_throttle_witness :
    throttleInst.skip_rpa = true ∧ 0 < throttleInst.skip_rpa_count ∧
    (configureRpaEntry throttleInst =
      ({ throttleInst with skip_rpa_count := throttleInst.skip_rpa_count - 1 },
       RpaOutcome.throttled) ∧
     (∀ (inst_count : Nat) (table : List AdvInst) (inst_id d m now hci : Nat),
       inst_id < inst_count → table.get? inst_id = some throttleInst →
       throttleInst.in_use = true → throttleInst.address_update_required = true →
       (enable inst_count table inst_id true d m false now hci).2 = some [])) :=
  ⟨by decide, by decide, C8_skip_rpa_throttle throttleInst (by decide) (by decide)⟩

/-- C9: a single RecomputeTimeout call invokes timeout_cb at most once, and
when the duration budget expires the events branch is skipped entirely: the
callback fires exactly once and maxExtAdvEvents is left unmodified. -/
theorem C9_timeout_cb_once (inst : AdvInst) (now : Nat) :
    (recomputeTimeout inst now).2.length ≤ 1 ∧
    (inst.duration ≠ 0 → inst.duration ≤ (now - inst.enable_time) / 10 + 1 →
      (recomputeTimeout inst now).2 = [0] ∧
      (recomputeTimeout inst now).1.maxExtAdvEvents = inst.maxExtAdvEvents) := by
  constructor
  · exact recompute_cb_len inst now
  · intro hd hex
    rw [recompute_duration_exhaust inst now hd hex]
    exact ⟨rfl, rfl⟩

/-- Witness for C9 at a set whose duration and event budgets are both
exhausted: one callback, events cap untouched. -/
theorem C9_timeout_cb_once_witness :
    ((recomputeTimeout bothCapsInst 400).2.length ≤ 1 ∧
     (bothCapsInst.duration ≠ 0 →
       bothCapsInst.duration ≤ (400 - bothCapsInst.enable_time) / 10 + 1 →
       (recomputeTimeout bothCapsInst 400).2 = [0] ∧
       (recomputeTimeout bothCapsInst 400).1.maxExtAdvEvents =
         bothCapsInst.maxExtAdvEvents)) :=
  C9_timeout_cb_once bothCapsInst 400

/-- C10: GetOwnAddress and OnAdvertisingSetTerminated index the instance
table with the caller-supplied id/handle before any range or in_use check,
so their total-lookup error branch is avoided exactly under the hypothesis
that the id is below the table size (inst_count entries), while
CreateBIGComplete and TerminateBIGComplete reject out-of-range handles
before touching any table. -/
theorem C10_unguarded_table_indexing :
    (∀ (table : List AdvInst) (inst_id : Nat), inst_id < table.length →
      (getOwnAddress table inst_id).isSome = true) ∧
    (∀ (table : List AdvInst) (inst_id : Nat), table.length ≤ inst_id →
      getOwnAddress table inst_id = none) ∧
    (∀ (table : List AdvInst) (status handle now : Nat), handle < table.length →
      (onAdvertisingSetTerminated table status handle now).isSome = true) ∧
    (∀ (table : List AdvInst) (status handle now : Nat), table.length ≤ handle →
      onAdvertisingSetTerminated table status handle now = none) ∧
    (∀ (inst_count : Nat) (advTable : List AdvInst) (bigTable : List IsoBIGInst)
        (status big_handle : Nat) (l : List Nat), inst_count ≤ big_handle →
      createBIGComplete inst_count advTable bigTable status big_handle l =
        BigEventResult.rejected) ∧
    (∀ (inst_count : Nat) (advTable : List AdvInst) (bigTable : List IsoBIGInst)
        (status big_handle : Nat) (cs : Bool) (r : Nat), inst_count ≤ big_handle →
      terminateBIGComplete inst_count advTable bigTable status big_handle cs r =
        BigEventResult.rejected) ∧
    (∀ (inst_count : Nat) (advTable : List AdvInst) (bigTable : List IsoBIGInst)
        (status big_handle : Nat) (l : List Nat), big_handle < inst_count →
      createBIGComplete inst_count advTable bigTable status big_handle l ≠
        BigEventResult.rejected) := by
  refine ⟨?_, ?_, ?_, ?_, ?_, ?_, ?_⟩
  · intro table inst_id h
    exact getOwnAddress_inBounds table inst_id h
  · intro table inst_id h
    exact getOwnAddress_oob table inst_id h
  · intro table status handle now h
    exact onAdvertisingSetTerminated_inBounds table status handle now h
  · intro table status handle now h
    exact onAdvertisingSetTerminated_oob table status handle now h
  · intro inst_count advTable bigTable status big_handle l h
    exact createBIGComplete_rejected inst_count advTable bigTable status big_handle l h
  · intro inst_count advTable bigTable status big_handle cs r h
    exact terminateBIGComplete_rejected inst_count advTable bigTable status big_handle cs r h
  · intro inst_count advTable bigTable status big_handle l h
    exact createBIGComplete_not_rejected inst_count advTable bigTable status big_handle l h

/-- Witness for C10: a one-entry table, an in-range lookup at 0 and an
out-of-range lookup at 3, and a BIG event rejected at handle 3 with
inst_count 1. -/
theorem C10_unguarded_table_indexing_witness :
    ((0 : Nat) < ([mkInst] : List AdvInst).length ∧
      (getOwnAddress [mkInst] 0).isSome = true) ∧
    (([mkInst] : List AdvInst).length ≤ 3 ∧ getOwnAddress [mkInst] 3 = none) ∧
    ((1 : Nat) ≤ 3 ∧
      createBIGComplete 1 [mkInst] [⟨0, false, [], 0, false⟩] 0 3 [] =
        BigEventResult.rejected) :=
  ⟨⟨by decide, C10_unguarded_table_indexing.1 [mkInst] 0 (by decide)⟩,
   ⟨by decide, C10_unguarded_table_indexing.2.1 [mkInst] 3 (by decide)⟩,
   ⟨by decide, C10_unguarded_table_indexing.2.2.2.2.1 1 [mkInst]
     [⟨0, false, [], 0, false⟩] 0 3 [] (by decide)⟩⟩

end BtmBleMultiAdv
